import Mathlib

/-!
Shallow embedding of the LLMath-Problems backend (src/backend/main.py).

The service is a set of FastAPI handlers over three MongoDB collections:
problems_collection, types_collection and type_bindings_collection.
We model the document store as lists of typed documents (Mongo natural
order = list order):
  * find_one       = List.find? (first match),
  * insert_one     = append at the end,
  * delete_one     = remove the first match,
  * delete_many    = List.filter on the complement of the filter,
  * update_one     = rewrite the first match with the set fields; the
    reported modified count is 0 when the set fields leave the document
    unchanged (Mongo counts only real modifications).
Generated identifiers (ObjectId values) are modeled as natural numbers;
the store carries a counter used for server-side generation.  Uninterpreted JSON
payloads (Dict[str, Any] fields of a Step, the llm_solution field) are
modeled as string data, since the service never inspects them.
Handler results are Except values: badRequest = HTTP 400, notFound = 404,
internalError = 500 raised by the handler, storeFault = an exception that
the handler does not catch (for example a duplicate-key error on insert).
-/

namespace LLMathProblems

/-- Dict[str, Any] payloads of a Step: uninterpreted key/value data. -/
abbrev JsonDict := List (String × String)

/-- One solution step (pydantic model Step in main.py). -/
structure Step where
  order : Int
  prerequisites : JsonDict
  transition : JsonDict
  outcomes : JsonDict
deriving DecidableEq

/-- pydantic model Solution: an ordered list of steps. -/
structure Solution where
  steps : List Step
deriving DecidableEq

/-- pydantic model GeoilonAnsKey: answer-key hash and seed. -/
structure GeoilonAnsKey where
  hash : String
  seed : Int
deriving DecidableEq

/-- pydantic model Problem, also the stored document shape: the id field
is the Mongo "_id"; llm_solution (Optional[Any]) is uninterpreted data. -/
structure Problem where
  id : Nat
  title : Option String
  statement : String
  geolin_ans_key : GeoilonAnsKey
  result : Option String
  solution : Solution
  llm_solution : Option String
deriving DecidableEq

/-- A document of types_collection: generated "_id" plus the type_name. -/
structure TypeDoc where
  id : Nat
  type_name : String
deriving DecidableEq

/-- A document of type_bindings_collection.  The query side reads the
problem_id field with .get (it may be absent), hence an Option. -/
structure TypeBinding where
  type_id : Nat
  problem_id : Option Nat
deriving DecidableEq

/-- The document store: the three collections used by the second API
revision, plus the counter supplying server-generated ObjectId values. -/
structure Store where
  problems_collection : List Problem
  types_collection : List TypeDoc
  type_bindings_collection : List TypeBinding
  nextId : Nat
deriving DecidableEq

/-- HTTP-level outcomes of a handler. -/
inductive ApiError where
  | badRequest (detail : String)
  | notFound (detail : String)
  | internalError (detail : String)
  | storeFault (detail : String)
deriving DecidableEq

/-- An id string as received in a path parameter: ObjectId(id) either
parses (a well-formed 24-hex-digit identifier, modeled by the Nat it
denotes) or raises, which the handlers turn into HTTP 400. -/
inductive IdStr where
  | wellFormed (oid : Nat)
  | malformed (raw : String)
deriving DecidableEq

/-- Detail message of the 400 raised when ObjectId(id) fails. -/
def invalidIdMsg : String := "Некорректный идентификатор"

/-- Detail message of the 404 of the read handler. -/
def problemNotFoundMsg : String := "Задача не найдена"

/-- Detail message of the 404 of the update handler. -/
def updateNotFoundMsg : String := "Задача не найдена или не удалось обновить"

/-- Detail message of the 404 of the delete handler. -/
def deleteNotFoundMsg : String := "Задача не найдена для удаления"

/-- Detail message of the 500 of the create handler. -/
def createFailedMsg : String := "Ошибка при создании задачи"

/-- Confirmation text returned by a successful delete. -/
def deletedMsg (oid : Nat) : String :=
  "Задача Id=" ++ toString oid ++ " была удалена"

/-- Detail of the 400 produced by the assign handler when the problem
lookup fails (the 404 raised in the try block, re-raised as a 400). -/
def assignBadPidMsg (pid : Nat) : String :=
  "Некорректный problem_id: " ++ toString pid

/-- Confirmation text of a fresh type assignment. -/
def assignedMsg (pid : Nat) (t : String) : String :=
  "Задаче ID: " ++ toString pid ++ " присвоен тип " ++ t

/-- Short-circuit text when the (type, problem) binding already exists. -/
def alreadyAssignedMsg (pid : Nat) (t : String) : String :=
  "Задаче ID: " ++ toString pid ++ " уже присвоен тип " ++ t

/-- The request body of POST /api/problems before pydantic fills
defaults: the body may or may not carry an "_id" value. -/
structure ProblemIn where
  body_id : Option Nat
  title : Option String
  statement : String
  geolin_ans_key : GeoilonAnsKey
  result : Option String
  solution : Solution
  llm_solution : Option String
deriving DecidableEq

/-- pydantic validation of a Problem body: the id field keeps a supplied
"_id" and otherwise takes the default_factory value, a freshly generated
ObjectId (the freshId argument). -/
def validateProblem (pin : ProblemIn) (freshId : Nat) : Problem :=
  { id := pin.body_id.getD freshId
    title := pin.title
    statement := pin.statement
    geolin_ans_key := pin.geolin_ans_key
    result := pin.result
    solution := pin.solution
    llm_solution := pin.llm_solution }

/-- Handler create_problem (POST /api/problems): insert_one of the dumped
model (its "_id" included), then find_one of the inserted id.  Mongo
raises a duplicate-key error if the "_id" is already present; the handler
does not catch it (storeFault). -/
def create_problem (s : Store) (problem : Problem) :
    Except ApiError Problem × Store :=
  if s.problems_collection.any (fun q => q.id == problem.id) then
    (.error (.storeFault "duplicate key"), s)
  else
    let s1 : Store :=
      { s with problems_collection := s.problems_collection ++ [problem] }
    match s1.problems_collection.find? (fun p => p.id == problem.id) with
    | some created => (.ok created, s1)
    | none => (.error (.internalError createFailedMsg), s1)

/-- Handler get_problem (GET /api/problems/id): 400 on a malformed id,
404 when no document matches, otherwise the stored document. -/
def get_problem (s : Store) (id : IdStr) : Except ApiError Problem :=
  match id with
  | .malformed _ => .error (.badRequest invalidIdMsg)
  | .wellFormed oid =>
    match s.problems_collection.find? (fun p => p.id == oid) with
    | some problem => .ok problem
    | none => .error (.notFound problemNotFoundMsg)

/-- Effect of the update document of update_problem: a set of every field
except "_id" (model_dump excludes id), applied to a stored document. -/
def apply_set (d : Problem) (upd : Problem) : Problem :=
  { upd with id := d.id }

/-- Rewrite of the first document matching the id by the set fields. -/
def replace_first (l : List Problem) (oid : Nat) (upd : Problem) :
    List Problem :=
  match l with
  | [] => []
  | p :: rest =>
    if p.id == oid then apply_set p upd :: rest
    else p :: replace_first rest oid upd

/-- Mongo update_one with a set document: returns the reported modified
count and the new collection.  The count is 1 only when a document
matched and the set fields actually changed it. -/
def update_one (l : List Problem) (oid : Nat) (upd : Problem) :
    Nat × List Problem :=
  match l.find? (fun p => p.id == oid) with
  | none => (0, l)
  | some d =>
    if apply_set d upd = d then (0, l)
    else (1, replace_first l oid upd)

/-- Handler update_problem (PUT /api/problems/id): update_one, then, when
the modified count is 1, a find_one that returns the updated document;
otherwise a second find_one that returns the existing document, and a 404
only when even that lookup finds nothing. -/
def update_problem (s : Store) (id : IdStr) (problem_update_data : Problem) :
    Except ApiError Problem × Store :=
  match id with
  | .malformed _ => (.error (.badRequest invalidIdMsg), s)
  | .wellFormed oid =>
    let res := update_one s.problems_collection oid problem_update_data
    let s1 : Store := { s with problems_collection := res.snd }
    let firstLookup : Option Problem :=
      if res.fst = 1 then
        s1.problems_collection.find? (fun p => p.id == oid)
      else none
    match firstLookup with
    | some updated => (.ok updated, s1)
    | none =>
      match s1.problems_collection.find? (fun p => p.id == oid) with
      | some existing => (.ok existing, s1)
      | none => (.error (.notFound updateNotFoundMsg), s1)

/-- Mongo delete_one on the problems collection: removes the first
matching document, reporting the deleted count. -/
def delete_one (l : List Problem) (oid : Nat) : Nat × List Problem :=
  match l with
  | [] => (0, [])
  | p :: rest =>
    if p.id == oid then (1, rest)
    else
      let r := delete_one rest oid
      (r.fst, p :: r.snd)

/-- Handler delete_problem (DELETE /api/problems/id): first a delete_many
of every type binding whose problem_id equals the id, then a delete_one
of the problem; 404 when the problem delete removed nothing (the binding
removal is not undone in that case). -/
def delete_problem (s : Store) (id : IdStr) :
    Except ApiError String × Store :=
  match id with
  | .malformed _ => (.error (.badRequest invalidIdMsg), s)
  | .wellFormed oid =>
    let kept := s.type_bindings_collection.filter
      (fun b => !(b.problem_id == some oid))
    let s1 : Store := { s with type_bindings_collection := kept }
    let r := delete_one s1.problems_collection oid
    let s2 : Store := { s1 with problems_collection := r.snd }
    if r.fst = 1 then (.ok (deletedMsg oid), s2)
    else (.error (.notFound deleteNotFoundMsg), s2)

/-- Handler get_all_problems (GET /api/problems): to_list with a length
cap of 1000. -/
def get_all_problems (s : Store) : List Problem :=
  s.problems_collection.take 1000

/-- Second half of assign_type_to_problem once the type id is known: a
find_one on the (type_id, problem_id) pair, the already-assigned
short-circuit, otherwise an insert_one of the binding. -/
def insert_binding_step (s : Store) (type_id : Nat) (type_name : String)
    (problem_id : Nat) : Except ApiError String × Store :=
  match s.type_bindings_collection.find?
      (fun b => b.type_id == type_id && b.problem_id == some problem_id) with
  | some _ => (.ok (alreadyAssignedMsg problem_id type_name), s)
  | none =>
    let newBindings := s.type_bindings_collection ++
      [{ type_id := type_id, problem_id := some problem_id }]
    (.ok (assignedMsg problem_id type_name),
     { s with type_bindings_collection := newBindings })

/-- Handler assign_type_to_problem (POST /api/assign_type).  The body is
already validated (problem_id is a well-formed ObjectId).  The handler
wraps the problem lookup in a try block and raises a 404 inside it when
no problem matches; the blanket except clause catches that very exception
and re-raises it as a 400, so a missing problem surfaces as badRequest.
Then the type is looked up by value and created when absent (the new
document takes a server-generated id), and the binding step runs. -/
def assign_type_to_problem (s : Store) (type_name : String)
    (problem_id : Nat) : Except ApiError String × Store :=
  match s.problems_collection.find? (fun p => p.id == problem_id) with
  | none => (.error (.badRequest (assignBadPidMsg problem_id)), s)
  | some _ =>
    match s.types_collection.find? (fun d => d.type_name == type_name) with
    | some existing_type =>
      insert_binding_step s existing_type.id type_name problem_id
    | none =>
      let newTypes :=
        s.types_collection ++ [{ id := s.nextId, type_name := type_name }]
      let s1 : Store :=
        { s with types_collection := newTypes, nextId := s.nextId + 1 }
      insert_binding_step s1 s.nextId type_name problem_id

/-- Loop body of get_problems_by_type: walk the bindings, skip a binding
with no problem_id field and a binding whose problem no longer exists
(both only log a warning), append each resolved problem. -/
def resolve_bindings (s : Store) (bindings : List TypeBinding)
    (acc : List Problem) : List Problem :=
  match bindings with
  | [] => acc
  | b :: rest =>
    match b.problem_id with
    | none => resolve_bindings s rest acc
    | some pid =>
      match s.problems_collection.find? (fun p => p.id == pid) with
      | some p => resolve_bindings s rest (acc ++ [p])
      | none => resolve_bindings s rest acc

/-- Handler get_problems_by_type (GET /api/get_problems_by_type): an
unknown type value answers the empty list; otherwise every binding
carrying the id of the found type document is resolved. -/
def get_problems_by_type (s : Store) (problem_type : String) :
    List Problem :=
  match s.types_collection.find? (fun d => d.type_name == problem_type) with
  | none => []
  | some type_doc =>
    let bindings := s.type_bindings_collection.filter
      (fun b => b.type_id == type_doc.id)
    resolve_bindings s bindings []

/-- Handler get_all_types (GET /api/types): when the types collection
does not exist yet (it is created by the first insert and never dropped,
so this is the empty-collection case) the handler returns []; otherwise
it projects the type_name field of every document (every stored document
has the field in this model). -/
def get_all_types (s : Store) : List String :=
  if s.types_collection.isEmpty then []
  else s.types_collection.map (fun d => d.type_name)

/-! Concrete fixtures used by witnesses and counterexamples. -/

/-- The store before any request was served. -/
def emptyStore : Store :=
  { problems_collection := [], types_collection := [],
    type_bindings_collection := [], nextId := 0 }

/-- Answer key of the end-to-end example of the spec. -/
def keyEx : GeoilonAnsKey := { hash := "abc", seed := 1 }

/-- The end-to-end example problem, stored under id 5. -/
def probEx : Problem :=
  { id := 5, title := none, statement := "2+2=?", geolin_ans_key := keyEx,
    result := some "", solution := { steps := [] }, llm_solution := none }

/-- A create body that carries an explicit "_id" value of 5. -/
def pinEx : ProblemIn :=
  { body_id := some 5, title := none, statement := "2+2=?",
    geolin_ans_key := keyEx, result := some "", solution := { steps := [] },
    llm_solution := none }

/-- A store holding exactly the example problem. -/
def store1 : Store :=
  { problems_collection := [probEx], types_collection := [],
    type_bindings_collection := [], nextId := 1 }

/-! Helper lemmas about the Mongo primitives. -/

/-- A find_one over an insert of a fresh id lands on the new document. -/
theorem find?_append_singleton_self (l : List Problem) (p : Problem)
    (h : ∀ q ∈ l, q.id ≠ p.id) :
    (l ++ [p]).find? (fun q => q.id == p.id) = some p := by
  rw [List.find?_append]
  have h1 : l.find? (fun q => q.id == p.id) = none := by
    rw [List.find?_eq_none]
    intro x hx
    simp [h x hx]
  rw [h1]
  simp

/-- Inserting a document with a fresh id succeeds and the handler answers
the inserted document together with the extended store. -/
theorem create_problem_ok (s : Store) (p : Problem)
    (h : ∀ q ∈ s.problems_collection, q.id ≠ p.id) :
    create_problem s p =
      (Except.ok p,
       { s with problems_collection := s.problems_collection ++ [p] }) := by
  have hany : s.problems_collection.any (fun q => q.id == p.id) = false := by
    rw [List.any_eq_false]
    intro x hx
    simp [h x hx]
  unfold create_problem
  rw [hany]
  simp [find?_append_singleton_self s.problems_collection p h]

/-- A find_one whose filter fails on the first list finds in the rest. -/
theorem find?_append_of_none {α : Type} (l1 l2 : List α) (p : α → Bool)
    (h : l1.find? p = none) : (l1 ++ l2).find? p = l2.find? p := by
  rw [List.find?_append, h]
  rfl

/-! Claim theorems. -/

/-- Claim C1: when Create accepts a payload and answers a document, a
Read of the id of that document answers the very same document. -/
theorem create_then_read_roundtrip (s : Store) (p d : Problem)
    (h : (create_problem s p).fst = Except.ok d) :
    get_problem (create_problem s p).snd (IdStr.wellFormed d.id) =
      Except.ok d := by
  by_cases hc : ∀ q ∈ s.problems_collection, q.id ≠ p.id
  · rw [create_problem_ok s p hc] at h ⊢
    simp only at h
    cases h
    unfold get_problem
    simp [find?_append_singleton_self s.problems_collection p hc]
  · exfalso
    push_neg at hc
    obtain ⟨q, hq, hqid⟩ := hc
    have hany : s.problems_collection.any (fun x => x.id == p.id) = true := by
      rw [List.any_eq_true]
      exact ⟨q, hq, by simp [hqid]⟩
    rw [create_problem, hany] at h
    simp at h

/-- Witness for create_then_read_roundtrip: the end-to-end example. -/
theorem create_then_read_roundtrip_witness :
    get_problem (create_problem emptyStore probEx).snd
      (IdStr.wellFormed probEx.id) = Except.ok probEx :=
  create_then_read_roundtrip emptyStore probEx probEx rfl

/-- Claim C2 (amended): Create stores the document under the id carried
by the validated payload, the client-supplied body id when one is
present and the freshly generated id only otherwise; the returned
document carries that id. -/
theorem create_problem_stores_payload_id (s : Store) (pin : ProblemIn)
    (freshId : Nat)
    (h : ∀ q ∈ s.problems_collection, q.id ≠ (validateProblem pin freshId).id) :
    create_problem s (validateProblem pin freshId) =
      (Except.ok (validateProblem pin freshId),
       { s with problems_collection :=
           s.problems_collection ++ [validateProblem pin freshId] })
    ∧ (validateProblem pin freshId).id = pin.body_id.getD freshId :=
  ⟨create_problem_ok s _ h, rfl⟩

/-- Witness for create_problem_stores_payload_id on the empty store. -/
theorem create_problem_stores_payload_id_witness :
    create_problem emptyStore (validateProblem pinEx 7) =
      (Except.ok (validateProblem pinEx 7),
       { emptyStore with problems_collection :=
           emptyStore.problems_collection ++ [validateProblem pinEx 7] })
    ∧ (validateProblem pinEx 7).id = pinEx.body_id.getD 7 :=
  create_problem_stores_payload_id emptyStore pinEx 7 (by decide)

/-- Claim C2 counterexample: with fresh id 7 at hand, a body carrying id
5 is stored and answered under 5, so the body id is not ignored and the
stored id is not the freshly generated one. -/
theorem create_uses_body_id_counterexample :
    (create_problem emptyStore (validateProblem pinEx 7)).fst =
      Except.ok (validateProblem pinEx 7)
    ∧ (validateProblem pinEx 7).id = 5
    ∧ ((create_problem emptyStore
        (validateProblem pinEx 7)).snd.problems_collection.map
          (fun p => p.id)) = [5]
    ∧ (5 : Nat) ≠ 7 :=
  ⟨rfl, rfl, rfl, by decide⟩

/-- Claim C4 (the code departs from the spec here): assigning a type to
a well-formed problem id that matches no stored problem answers 400
badRequest, because the 404 raised inside the try block is caught by the
blanket except clause and re-raised as a 400. -/
theorem assign_type_missing_problem_yields_badRequest :
    assign_type_to_problem emptyStore "arithmetic" 5 =
      (Except.error (ApiError.badRequest (assignBadPidMsg 5)), emptyStore) :=
  rfl

/-- Claim C5: Read answers 400 on a malformed id, 404 when no stored
problem carries the id, and the stored document found by the id lookup
otherwise. -/
theorem get_problem_spec (s : Store) :
    (∀ raw, get_problem s (IdStr.malformed raw) =
        Except.error (ApiError.badRequest invalidIdMsg))
    ∧ (∀ oid, (∀ p ∈ s.problems_collection, p.id ≠ oid) →
        get_problem s (IdStr.wellFormed oid) =
          Except.error (ApiError.notFound problemNotFoundMsg))
    ∧ (∀ oid d, s.problems_collection.find? (fun p => p.id == oid) = some d →
        get_problem s (IdStr.wellFormed oid) = Except.ok d) := by
  refine ⟨fun raw => rfl, fun oid h => ?_, fun oid d h => ?_⟩
  · have hn : s.problems_collection.find? (fun p => p.id == oid) = none := by
      rw [List.find?_eq_none]
      intro x hx
      simp [h x hx]
    simp [get_problem, hn]
  · simp [get_problem, h]

/-- Witness for get_problem_spec on the one-problem store. -/
theorem get_problem_spec_witness :
    get_problem store1 (IdStr.malformed "not-an-id") =
      Except.error (ApiError.badRequest invalidIdMsg)
    ∧ get_problem store1 (IdStr.wellFormed 6) =
      Except.error (ApiError.notFound problemNotFoundMsg)
    ∧ get_problem store1 (IdStr.wellFormed 5) = Except.ok probEx := by
  obtain ⟨h1, h2, h3⟩ := get_problem_spec store1
  exact ⟨h1 "not-an-id", h2 6 (by decide), h3 5 probEx rfl⟩

/-- Claim C7: querying by a type value with no stored tag of that value
answers the empty list rather than an error. -/
theorem get_problems_by_type_unknown_empty (s : Store) (v : String)
    (h : ∀ d ∈ s.types_collection, d.type_name ≠ v) :
    get_problems_by_type s v = [] := by
  have hn : s.types_collection.find? (fun d => d.type_name == v) = none := by
    rw [List.find?_eq_none]
    intro x hx
    simp [h x hx]
  simp [get_problems_by_type, hn]

/-- Witness for get_problems_by_type_unknown_empty. -/
theorem get_problems_by_type_unknown_empty_witness :
    get_problems_by_type store1 "nonexistent" = [] :=
  get_problems_by_type_unknown_empty store1 "nonexistent" (by decide)

/-- When the store already answers the three lookups of the assign
handler positively, the handler short-circuits with the already-assigned
message and leaves the store untouched. -/
theorem assign_short_circuits (s : Store) (t : String) (pid : Nat)
    (prob : Problem) (ty : TypeDoc) (b : TypeBinding)
    (hp : s.problems_collection.find? (fun p => p.id == pid) = some prob)
    (ht : s.types_collection.find? (fun d => d.type_name == t) = some ty)
    (hb : s.type_bindings_collection.find?
        (fun x => x.type_id == ty.id && x.problem_id == some pid) = some b) :
    assign_type_to_problem s t pid =
      (Except.ok (alreadyAssignedMsg pid t), s) := by
  simp only [assign_type_to_problem, hp, ht, insert_binding_step, hb]

/-- Claim C6: once a first assignment of a type value to an existing
problem succeeded, repeating the very same assignment answers the
already-assigned message and leaves the store, its type bindings
included, unchanged. -/
theorem assign_type_second_call_already_assigned (s : Store) (t : String)
    (pid : Nat)
    (h : ∃ m, (assign_type_to_problem s t pid).fst = Except.ok m) :
    assign_type_to_problem (assign_type_to_problem s t pid).snd t pid =
      (Except.ok (alreadyAssignedMsg pid t),
       (assign_type_to_problem s t pid).snd) := by
  obtain ⟨m, hm⟩ := h
  cases hp : s.problems_collection.find? (fun p => p.id == pid) with
  | none =>
    rw [assign_type_to_problem, hp] at hm
    exact absurd hm (by simp)
  | some prob =>
    cases ht : s.types_collection.find? (fun d => d.type_name == t) with
    | some ty =>
      cases hb : s.type_bindings_collection.find?
          (fun x => x.type_id == ty.id && x.problem_id == some pid) with
      | some b =>
        have hfirst : assign_type_to_problem s t pid =
            (Except.ok (alreadyAssignedMsg pid t), s) :=
          assign_short_circuits s t pid prob ty b hp ht hb
        rw [hfirst]
        exact assign_short_circuits s t pid prob ty b hp ht hb
      | none =>
        have hfirst : assign_type_to_problem s t pid =
            (Except.ok (assignedMsg pid t),
             { s with type_bindings_collection :=
                 s.type_bindings_collection ++
                   [{ type_id := ty.id, problem_id := some pid }] }) := by
          simp only [assign_type_to_problem, hp, ht, insert_binding_step, hb]
        have hb2 : (s.type_bindings_collection ++
              [({ type_id := ty.id, problem_id := some pid } : TypeBinding)]).find?
              (fun x => x.type_id == ty.id && x.problem_id == some pid) =
            some { type_id := ty.id, problem_id := some pid } := by
          rw [find?_append_of_none _ _ _ hb]
          simp
        rw [hfirst]
        exact assign_short_circuits _ t pid prob ty _ hp ht hb2
    | none =>
      have ht2 : (s.types_collection ++
            [({ id := s.nextId, type_name := t } : TypeDoc)]).find?
            (fun d => d.type_name == t) =
          some { id := s.nextId, type_name := t } := by
        rw [find?_append_of_none _ _ _ ht]
        simp
      cases hb : s.type_bindings_collection.find?
          (fun x => x.type_id == s.nextId && x.problem_id == some pid) with
      | some b =>
        have hfirst : assign_type_to_problem s t pid =
            (Except.ok (alreadyAssignedMsg pid t),
             { s with
                 types_collection :=
                   s.types_collection ++ [{ id := s.nextId, type_name := t }]
                 nextId := s.nextId + 1 }) := by
          simp only [assign_type_to_problem, hp, ht, insert_binding_step, hb]
        rw [hfirst]
        exact assign_short_circuits _ t pid prob
          { id := s.nextId, type_name := t } b hp ht2 hb
      | none =>
        have hfirst : assign_type_to_problem s t pid =
            (Except.ok (assignedMsg pid t),
             { s with
                 types_collection :=
                   s.types_collection ++ [{ id := s.nextId, type_name := t }]
                 nextId := s.nextId + 1
                 type_bindings_collection :=
                   s.type_bindings_collection ++
                     [{ type_id := s.nextId, problem_id := some pid }] }) := by
          simp only [assign_type_to_problem, hp, ht, insert_binding_step, hb]
        have hb2 : (s.type_bindings_collection ++
              [({ type_id := s.nextId, problem_id := some pid } : TypeBinding)]).find?
              (fun x => x.type_id == s.nextId && x.problem_id == some pid) =
            some { type_id := s.nextId, problem_id := some pid } := by
          rw [find?_append_of_none _ _ _ hb]
          simp
        rw [hfirst]
        exact assign_short_circuits _ t pid prob
          { id := s.nextId, type_name := t }
          { type_id := s.nextId, problem_id := some pid } hp ht2 hb2

/-- Witness for assign_type_second_call_already_assigned: assign the
type of the end-to-end example twice to the stored example problem. -/
theorem assign_type_second_call_already_assigned_witness :
    assign_type_to_problem
        (assign_type_to_problem store1 "arithmetic" 5).snd "arithmetic" 5 =
      (Except.ok (alreadyAssignedMsg 5 "arithmetic"),
       (assign_type_to_problem store1 "arithmetic" 5).snd) :=
  assign_type_second_call_already_assigned store1 "arithmetic" 5
    ⟨assignedMsg 5 "arithmetic", rfl⟩

/-- A delete_one over a collection with no matching id removes nothing. -/
theorem delete_one_not_found (l : List Problem) (oid : Nat)
    (h : ∀ p ∈ l, p.id ≠ oid) : delete_one l oid = (0, l) := by
  induction l with
  | nil => rfl
  | cons p rest ih =>
    have hp : (p.id == oid) = false := by simp [h p (by simp)]
    have hr := ih (fun q hq => h q (by simp [hq]))
    simp [delete_one, hp, hr]

/-- A delete_one over a collection holding the id removes exactly the
first matching document. -/
theorem delete_one_found (l : List Problem) (oid : Nat)
    (h : ∃ p ∈ l, p.id = oid) :
    delete_one l oid = (1, l.eraseP (fun p => p.id == oid)) := by
  induction l with
  | nil => simp at h
  | cons p rest ih =>
    by_cases hp : p.id = oid
    · simp [delete_one, hp]
    · have h2 : ∃ q ∈ rest, q.id = oid := by
        obtain ⟨q, hq, hqe⟩ := h
        rcases List.mem_cons.mp hq with hq1 | hq2
        · exact absurd (hq1 ▸ hqe) hp
        · exact ⟨q, hq2, hqe⟩
      simp [delete_one, hp, ih h2]

/-- A store with one orphan type binding and no stored problems. -/
def orphanStore : Store :=
  { problems_collection := [], types_collection := [],
    type_bindings_collection := [{ type_id := 1, problem_id := some 5 }],
    nextId := 2 }

/-- Claim C3 counterexample: deleting id 5 in a store holding an orphan
binding referencing 5 answers 404 although a binding was deleted, so the
store is not left unchanged and 404 does not coincide with nothing
having been deleted. -/
theorem delete_notfound_mutation_counterexample :
    delete_problem orphanStore (IdStr.wellFormed 5) =
      (Except.error (ApiError.notFound deleteNotFoundMsg),
       { orphanStore with type_bindings_collection := [] })
    ∧ ({ orphanStore with type_bindings_collection := [] } : Store) ≠
        orphanStore :=
  ⟨rfl, by decide⟩

/-- Claim C3 (amended): for a well-formed id, delete removes the first
stored problem carrying the id together with every type binding whose
problem_id references it and answers a confirmation; it answers 404
exactly when no stored problem carries the id; and when additionally no
type binding references the id (true whenever every binding references a
stored problem), a 404 outcome leaves the store unchanged. -/
theorem delete_problem_spec (s : Store) (oid : Nat) :
    ((∃ p ∈ s.problems_collection, p.id = oid) →
      delete_problem s (IdStr.wellFormed oid) =
        (Except.ok (deletedMsg oid),
         { s with
             problems_collection :=
               s.problems_collection.eraseP (fun p => p.id == oid)
             type_bindings_collection :=
               s.type_bindings_collection.filter
                 (fun b => !(b.problem_id == some oid)) }))
    ∧ ((∀ p ∈ s.problems_collection, p.id ≠ oid) →
      (delete_problem s (IdStr.wellFormed oid)).fst =
        Except.error (ApiError.notFound deleteNotFoundMsg)
      ∧ ((∀ b ∈ s.type_bindings_collection, b.problem_id ≠ some oid) →
        (delete_problem s (IdStr.wellFormed oid)).snd = s)) := by
  constructor
  · intro h
    have hd := delete_one_found s.problems_collection oid h
    simp [delete_problem, hd]
  · intro h
    have hd := delete_one_not_found s.problems_collection oid h
    constructor
    · simp only [delete_problem, hd]
      rfl
    · intro hb
      have hf : s.type_bindings_collection.filter
          (fun b => !(b.problem_id == some oid)) =
          s.type_bindings_collection := by
        rw [List.filter_eq_self]
        intro b hbm
        simp [hb b hbm]
      simp only [delete_problem, hd, hf]
      rw [if_neg (by decide)]

/-- Witness for delete_problem_spec: delete the stored example problem. -/
theorem delete_problem_spec_witness :
    delete_problem store1 (IdStr.wellFormed 5) =
      (Except.ok (deletedMsg 5),
       { store1 with
           problems_collection :=
             store1.problems_collection.eraseP (fun p => p.id == 5)
           type_bindings_collection :=
             store1.type_bindings_collection.filter
               (fun b => !(b.problem_id == some 5)) }) :=
  (delete_problem_spec store1 5).1 ⟨probEx, by decide, rfl⟩

/-- Claim C10: replacing an existing problem by a payload whose set
fields leave the document unchanged makes the store report zero modified
documents, yet the handler answers the stored document and no 404. -/
theorem update_problem_identical_ok (s : Store) (oid : Nat)
    (payload d : Problem)
    (hd : s.problems_collection.find? (fun p => p.id == oid) = some d)
    (heq : apply_set d payload = d) :
    (update_one s.problems_collection oid payload).fst = 0
    ∧ update_problem s (IdStr.wellFormed oid) payload = (Except.ok d, s) := by
  have hu : update_one s.problems_collection oid payload =
      (0, s.problems_collection) := by
    rw [update_one, hd]
    simp [heq]
  constructor
  · rw [hu]
  · simp only [update_problem, hu]
    simp [hd]

/-- Witness for update_problem_identical_ok: replace the example problem
by a payload with the very same fields. -/
theorem update_problem_identical_ok_witness :
    (update_one store1.problems_collection 5 probEx).fst = 0
    ∧ update_problem store1 (IdStr.wellFormed 5) probEx =
        (Except.ok probEx, store1) :=
  update_problem_identical_ok store1 5 probEx probEx rfl rfl

/-- The resolution loop of the type query equals a filterMap of the
problem lookup through the problem_id field. -/
theorem resolve_bindings_eq (s : Store) (bindings : List TypeBinding)
    (acc : List Problem) :
    resolve_bindings s bindings acc =
      acc ++ bindings.filterMap
        (fun b => b.problem_id.bind
          (fun pid => s.problems_collection.find? (fun p => p.id == pid))) := by
  induction bindings generalizing acc with
  | nil => simp [resolve_bindings]
  | cons b rest ih =>
    cases hb : b.problem_id with
    | none => simp [resolve_bindings, hb, ih]
    | some pid =>
      cases hp : s.problems_collection.find? (fun p => p.id == pid) with
      | some p => simp [resolve_bindings, hb, hp, ih]
      | none => simp [resolve_bindings, hb, hp, ih]

/-- Claim C8 (amended): for every stored type tag that the value lookup
resolves to (the first stored tag carrying its value, hence every stored
tag once tag values are distinct), the query fetches the bindings
carrying the id of that tag, resolves each through its problem_id,
silently skips a binding with no problem_id or whose problem no longer
exists, and answers exactly the resolved problems. -/
theorem get_problems_by_type_resolved (s : Store) (d : TypeDoc)
    (hd : s.types_collection.find? (fun x => x.type_name == d.type_name) =
      some d) :
    get_problems_by_type s d.type_name =
      (s.type_bindings_collection.filter
          (fun b => b.type_id == d.id)).filterMap
        (fun b => b.problem_id.bind
          (fun pid => s.problems_collection.find? (fun p => p.id == pid))) := by
  simp only [get_problems_by_type, hd]
  simpa using resolve_bindings_eq s
    (s.type_bindings_collection.filter (fun b => b.type_id == d.id)) []

/-- The store after the end-to-end example assignment: one problem, one
tag and one binding. -/
def tagStore : Store :=
  { problems_collection := [probEx],
    types_collection := [{ id := 1, type_name := "arithmetic" }],
    type_bindings_collection := [{ type_id := 1, problem_id := some 5 }],
    nextId := 2 }

/-- Witness for get_problems_by_type_resolved on the example store. -/
theorem get_problems_by_type_resolved_witness :
    get_problems_by_type tagStore
        ({ id := 1, type_name := "arithmetic" } : TypeDoc).type_name =
      (tagStore.type_bindings_collection.filter
          (fun b => b.type_id ==
            ({ id := 1, type_name := "arithmetic" } : TypeDoc).id)).filterMap
        (fun b => b.problem_id.bind
          (fun pid => tagStore.problems_collection.find?
            (fun p => p.id == pid))) :=
  get_problems_by_type_resolved tagStore
    { id := 1, type_name := "arithmetic" } rfl

/-- A store holding two tags with the same value, one of them bound to
the stored problem. -/
def shadowStore : Store :=
  { problems_collection := [probEx],
    types_collection := [{ id := 1, type_name := "arithmetic" },
                         { id := 2, type_name := "arithmetic" }],
    type_bindings_collection := [{ type_id := 2, problem_id := some 5 }],
    nextId := 3 }

/-- Claim C8 counterexample: the stored tag with id 2 has one binding
resolving to the stored problem, yet the query of its value answers the
empty list, because the lookup resolves the value to the first duplicate
tag. -/
theorem get_problems_by_type_shadowed_counterexample :
    ({ id := 2, type_name := "arithmetic" } : TypeDoc) ∈
        shadowStore.types_collection
    ∧ get_problems_by_type shadowStore "arithmetic" = []
    ∧ (shadowStore.type_bindings_collection.filter
          (fun b => b.type_id == 2)).filterMap
        (fun b => b.problem_id.bind
          (fun pid => shadowStore.problems_collection.find?
            (fun p => p.id == pid))) = [probEx] :=
  ⟨by decide, rfl, rfl⟩

/-- Claim C9 (amended): the type listing answers the type_name of every
stored type document as a flat list in store order; every stored tag
value appears in it, and when no two stored tags share a value the list
holds no value twice. -/
theorem get_all_types_spec (s : Store) :
    get_all_types s = s.types_collection.map (fun d => d.type_name)
    ∧ (∀ d ∈ s.types_collection, d.type_name ∈ get_all_types s)
    ∧ ((s.types_collection.map (fun d => d.type_name)).Nodup →
        (get_all_types s).Nodup) := by
  have he : get_all_types s =
      s.types_collection.map (fun d => d.type_name) := by
    cases hl : s.types_collection with
    | nil => simp [get_all_types, hl]
    | cons a l => simp [get_all_types, hl]
  refine ⟨he, ?_, ?_⟩
  · intro d hd
    rw [he]
    exact List.mem_map_of_mem _ hd
  · intro h
    rw [he]
    exact h

/-- Witness for get_all_types_spec on the example store, the duplicate
freedom of its tag values discharged concretely. -/
theorem get_all_types_spec_witness :
    get_all_types tagStore =
      tagStore.types_collection.map (fun d => d.type_name)
    ∧ (∀ d ∈ tagStore.types_collection, d.type_name ∈ get_all_types tagStore)
    ∧ (get_all_types tagStore).Nodup := by
  obtain ⟨h1, h2, h3⟩ := get_all_types_spec tagStore
  exact ⟨h1, h2, h3 (by decide)⟩

/-- A store holding two tag documents carrying the same value. -/
def dupTypesStore : Store :=
  { problems_collection := [],
    types_collection := [{ id := 1, type_name := "algebra" },
                         { id := 2, type_name := "algebra" }],
    type_bindings_collection := [], nextId := 3 }

/-- Claim C9 counterexample: two stored tags with the same value make
the listing answer that value twice. -/
theorem get_all_types_duplicates_counterexample :
    get_all_types dupTypesStore = ["algebra", "algebra"]
    ∧ ¬ (get_all_types dupTypesStore).Nodup :=
  ⟨rfl, by decide⟩

end LLMathProblems
